import Mathlib

/-!
Verification of the task-management dashboard's client-side logic.

The development shallowly embeds the pieces of the repository that the
properties below speak about:

* `filteredTasks` — the task filtering engine of `src/pages/Tasks.tsx`
  (lines 27–35): a `filter` over the task collection whose predicate
  conjoins a case-insensitive substring search over title / creator /
  assignee with categorical priority and status selectors.
* an `Option`-field variant of the same filter that models JavaScript
  semantics for absent (`null`/`undefined`) fields, where
  `task.title.toLowerCase()` throws a `TypeError`.
* `onSubmit` — the signup submission flow of
  `src/components/auth/SignupForm.tsx` (duplicate-email double check and
  the `security_code` gate).
* `signupSchema` — the zod validation schema of the second signup form
  (username / email / password / contact number / location / full name
  rules, with the `@outlook.com` suffix requirement on the email).
* the redirect logic of `src/pages/Login.tsx` (existing-session check and
  the `SIGNED_IN` handler) together with a spec-modelled dashboard gate.

Machine strings are modelled as Lean `String`s; JavaScript
`String.prototype.includes` becomes list-infix on the underlying
character lists, and `toLowerCase` becomes a character-wise
`Char.toLower` map.
-/

namespace TaskApp

/-- A task record, with the fields of the data model used by the
filtering engine (`title`, `created_by`, `assigned_to`, `priority`,
`status`) plus the bookkeeping fields `id` and `created_at`. -/
structure Task where
  id : Nat
  title : String
  created_by : String
  assigned_to : String
  priority : String
  status : String
  created_at : String
  deriving DecidableEq, Repr

/-- JavaScript `s.toLowerCase()`: each character lowercased. -/
def toLowerCase (s : String) : String :=
  ⟨s.data.map Char.toLower⟩

/-- JavaScript `hay.includes(needle)`: `needle` occurs contiguously in
`hay`. -/
def jsIncludes (hay needle : String) : Bool :=
  decide (needle.data <:+: hay.data)

/-- JavaScript `s.endsWith(post)`: `s` ends with the suffix `post`. -/
def jsEndsWith (s post : String) : Bool :=
  post.data.isSuffixOf s.data

/-- `matchesSearch` of `filteredTasks`:
`task.title.toLowerCase().includes(searchTerm.toLowerCase()) || ...`
over title, creator and assignee. -/
def matchesSearch (task : Task) (searchTerm : String) : Bool :=
  jsIncludes (toLowerCase task.title) (toLowerCase searchTerm) ||
  jsIncludes (toLowerCase task.created_by) (toLowerCase searchTerm) ||
  jsIncludes (toLowerCase task.assigned_to) (toLowerCase searchTerm)

/-- `matchesPriority`: `priorityFilter === "all" ? true : task.priority === priorityFilter`. -/
def matchesPriority (task : Task) (priorityFilter : String) : Bool :=
  if priorityFilter == "all" then true else task.priority == priorityFilter

/-- `matchesStatus`: `statusFilter === "all" ? true : task.status === statusFilter`. -/
def matchesStatus (task : Task) (statusFilter : String) : Bool :=
  if statusFilter == "all" then true else task.status == statusFilter

/-- The filter callback of `filteredTasks`:
`matchesSearch && matchesPriority && matchesStatus`. -/
def taskPred (task : Task) (searchTerm priorityFilter statusFilter : String) : Bool :=
  matchesSearch task searchTerm &&
  matchesPriority task priorityFilter &&
  matchesStatus task statusFilter

/-- The filtering engine of `src/pages/Tasks.tsx`:
`tasks.filter(task => matchesSearch && matchesPriority && matchesStatus)`. -/
def filteredTasks (tasks : List Task) (searchTerm priorityFilter statusFilter : String) :
    List Task :=
  tasks.filter (fun task => taskPred task searchTerm priorityFilter statusFilter)

/-- The heap effect of evaluating `tasks.filter(...)`: the pair of the
task collection after the call and the freshly produced output array
(`Array.prototype.filter` allocates a new array). -/
def filterRun (tasks : List Task) (searchTerm priorityFilter statusFilter : String) :
    List Task × List Task :=
  (tasks, filteredTasks tasks searchTerm priorityFilter statusFilter)

/-- Spec-side reading of the search condition: the search string,
compared case-insensitively, is a substring of the given field. -/
def ciSubstr (needle hay : String) : Prop :=
  (toLowerCase needle).data <:+: (toLowerCase hay).data

instance (needle hay : String) : Decidable (ciSubstr needle hay) := by
  unfold ciSubstr
  exact List.decidableInfix _ _

/-- A task record as JavaScript sees it: the three searched string
fields may be absent (`null`/`undefined`), modelled as `none`. -/
structure TaskOpt where
  title : Option String
  created_by : Option String
  assigned_to : Option String
  priority : String
  status : String
  deriving DecidableEq, Repr

/-- `field.toLowerCase().includes(needle)` under JavaScript semantics:
reading `toLowerCase` off an absent field throws a `TypeError`,
modelled as `Except.error ()`. -/
def lowerIncludes (field : Option String) (needle : String) : Except Unit Bool :=
  match field with
  | none => Except.error ()
  | some s => Except.ok (jsIncludes (toLowerCase s) needle)

/-- `matchesSearch` of the filter callback under JavaScript semantics,
with `||` short-circuiting left to right: a later field is only read
when every earlier one was present and did not match. -/
def matchesSearchOpt (task : TaskOpt) (searchTerm : String) : Except Unit Bool :=
  match task.title with
  | none => Except.error ()
  | some t1 =>
    if jsIncludes (toLowerCase t1) (toLowerCase searchTerm) then Except.ok true
    else
      match task.created_by with
      | none => Except.error ()
      | some t2 =>
        if jsIncludes (toLowerCase t2) (toLowerCase searchTerm) then Except.ok true
        else
          match task.assigned_to with
          | none => Except.error ()
          | some t3 => Except.ok (jsIncludes (toLowerCase t3) (toLowerCase searchTerm))

/-- The whole filter callback under JavaScript semantics; the priority
and status comparisons never throw. -/
def taskPredOpt (task : TaskOpt) (s p st : String) : Except Unit Bool :=
  match matchesSearchOpt task s with
  | Except.error e => Except.error e
  | Except.ok ms =>
    Except.ok (ms &&
      (if p == "all" then true else task.priority == p) &&
      (if st == "all" then true else task.status == st))

/-- `tasks.filter(...)` under JavaScript semantics: a `TypeError` thrown
by the callback aborts the whole call. -/
def filteredTasksOpt (s p st : String) : List TaskOpt → Except Unit (List TaskOpt)
  | [] => Except.ok []
  | task :: rest =>
    match taskPredOpt task s p st with
    | Except.error e => Except.error e
    | Except.ok b =>
      match filteredTasksOpt s p st rest with
      | Except.error e => Except.error e
      | Except.ok l => Except.ok (if b then task :: l else l)

/-- The values collected by the signup form of
`src/components/auth/SignupForm.tsx` (the `defaultValues` of its
`useForm`). -/
structure SignupFormValues where
  username : String
  email : String
  password : String
  birthdate : String
  contact_number : String
  address : String
  gender : String
  security_code : String
  position : String
  full_name : String
  deriving DecidableEq, Repr

/-- The observable outcome of one submission of the signup form:
the duplicate-email dialog (`setShowDuplicateEmail(true)` with the
"already registered" field error), the invalid-security-code toast, or
an actual `handleSignup` invocation. -/
inductive SubmitOutcome where
  | duplicateEmail
  | invalidSecurityCode
  | signupInvoked
  deriving DecidableEq, Repr

/-- `supabase.from("profiles").select("email").eq("email", e).maybeSingle()`:
the profile row for `e` among the registered profile emails, when
present. -/
def maybeSingleProfile (profiles : List String) (email : String) : Option String :=
  profiles.find? (fun x => x == email)

/-- The `onSubmit` handler of `SignupForm.tsx`: exit with the
duplicate-email state if the debounced pre-check left an email error or
the form carries an email field error; exit with the duplicate-email
state if the double check finds the email among the registered
profiles; exit with the invalid-security-code toast unless
`security_code` is exactly `"hrd712"`; only then call `handleSignup`. -/
def onSubmit (emailError : Option String) (formEmailError : Bool)
    (profiles : List String) (data : SignupFormValues) : SubmitOutcome :=
  if emailError.isSome || formEmailError then SubmitOutcome.duplicateEmail
  else if (maybeSingleProfile profiles data.email).isSome then SubmitOutcome.duplicateEmail
  else if data.security_code != "hrd712" then SubmitOutcome.invalidSecurityCode
  else SubmitOutcome.signupInvoked

/-- The values validated by the zod `signupSchema` of the second signup
form. -/
structure SignupValues where
  username : String
  email : String
  password : String
  contact_number : String
  location : String
  full_name : String
  deriving DecidableEq, Repr

/-- The zod `signupSchema` of the second signup form:
`username: min(3)`, `email: email().endsWith("@outlook.com")`,
`password: min(8)`, `contact_number: min(10)`, `location: min(3)`,
`full_name: min(3)`.  The well-formed-email test performed by
`z.string().email()` is zod library code outside this repository, so it
is kept abstract as the parameter `emailFormat`. -/
def signupSchema (emailFormat : String → Bool) (v : SignupValues) : Bool :=
  decide (3 ≤ v.username.length) &&
  (emailFormat v.email && jsEndsWith v.email "@outlook.com") &&
  decide (8 ≤ v.password.length) &&
  decide (10 ≤ v.contact_number.length) &&
  decide (3 ≤ v.location.length) &&
  decide (3 ≤ v.full_name.length)

/-- A backend session as observed by the login page: whether
`session.user.email_confirmed_at` is set. -/
structure Session where
  email_confirmed : Bool
  deriving DecidableEq, Repr

/-- The client routes involved in the login redirects: `/login`,
`/verify`, and the main view `/` holding the task dashboard. -/
inductive Route where
  | login
  | verify
  | main
  deriving DecidableEq, Repr

/-- `checkUser` of `Login.tsx`: with a session present on the login
page, `navigate("/")`; with none, stay on the login page. -/
def checkUser (session : Option Session) : Option Route :=
  match session with
  | some _ => some Route.main
  | none => none

/-- The `SIGNED_IN` branch of the `onAuthStateChange` handler of
`Login.tsx`: an unconfirmed email goes to `/verify`, a confirmed one to
`/`. -/
def onSignedIn (session : Session) : Route :=
  if session.email_confirmed then Route.main else Route.verify

/-- Modelled from the spec: the task dashboard's own session gate is not
part of the source slice; per the spec, an unverified session visiting
the task dashboard is redirected to the verification screen before any
task data loads, and verified sessions pass through. -/
def dashboardGate (session : Session) : Option Route :=
  if session.email_confirmed then none else some Route.verify

/-- Where a navigation to `r` finally lands once the dashboard gate has
run: a navigation to the main view by an unverified session bounces to
the verification screen; all other navigations land where they aim. -/
def landingRoute (session : Session) (r : Route) : Route :=
  match r with
  | Route.main =>
    match dashboardGate session with
    | some r2 => r2
    | none => Route.main
  | r => r

/-- A concrete task used by the witnesses. -/
def sampleTask : Task :=
  ⟨1, "Fix bug", "alice", "bob", "high", "pending", "2024-01-01"⟩

/-- A concrete signup submission whose email is registered. -/
def dupSignup : SignupFormValues :=
  ⟨"user1", "a@outlook.com", "password1", "2000-01-01", "0123456789",
    "addr", "other", "hrd712", "dev", "Alice Example"⟩

/-- A concrete signup submission with the correct security code. -/
def goodSignup : SignupFormValues :=
  ⟨"user2", "b@outlook.com", "password2", "2000-01-02", "0123456780",
    "addr", "other", "hrd712", "dev", "Bob Example"⟩

/-- A concrete signup submission with a wrong security code. -/
def badSignup : SignupFormValues :=
  ⟨"user3", "c@outlook.com", "password3", "2000-01-03", "0123456781",
    "addr", "other", "wrong1", "dev", "Carol Example"⟩

/-- A concrete schema input with an Outlook address. -/
def outlookValues : SignupValues :=
  ⟨"user4", "user4@outlook.com", "password4", "0123456789", "Berlin", "Dana Example"⟩

/-- A concrete schema input with a non-Outlook address. -/
def gmailValues : SignupValues :=
  ⟨"user5", "user5@gmail.com", "password5", "0123456789", "Berlin", "Ed Example"⟩

theorem jsIncludes_iff {hay needle : String} :
    jsIncludes hay needle = true ↔ needle.data <:+: hay.data := by
  simp [jsIncludes]

theorem matchesSearch_iff {t : Task} {s : String} :
    matchesSearch t s = true ↔
      ciSubstr s t.title ∨ ciSubstr s t.created_by ∨ ciSubstr s t.assigned_to := by
  simp [matchesSearch, jsIncludes, ciSubstr, Bool.or_eq_true, or_assoc]

theorem matchesPriority_iff {t : Task} {p : String} :
    matchesPriority t p = true ↔ p = "all" ∨ t.priority = p := by
  by_cases h : p = "all" <;> simp [matchesPriority, h]

theorem matchesStatus_iff {t : Task} {st : String} :
    matchesStatus t st = true ↔ st = "all" ∨ t.status = st := by
  by_cases h : st = "all" <;> simp [matchesStatus, h]

/-- Claim C1: a task is included in the filtered output iff it is in the
input collection, the search string is case-insensitively a substring of
its title, creator or assignee, the priority selector is `all` or equals
its priority, and the status selector is `all` or equals its status. -/
theorem mem_filteredTasks_iff (T : List Task) (s p st : String) (t : Task) :
    t ∈ filteredTasks T s p st ↔
      t ∈ T ∧
        (ciSubstr s t.title ∨ ciSubstr s t.created_by ∨ ciSubstr s t.assigned_to) ∧
        (p = "all" ∨ t.priority = p) ∧
        (st = "all" ∨ t.status = st) := by
  unfold filteredTasks
  rw [List.mem_filter]
  simp [taskPred, Bool.and_eq_true, matchesSearch_iff, matchesPriority_iff,
    matchesStatus_iff, and_assoc]

/-- Claim C4: the filtered result is a subsequence of the input: every
output element occurs in the input and relative order is preserved. -/
theorem filteredTasks_sublist (T : List Task) (s p st : String) :
    (filteredTasks T s p st).Sublist T :=
  List.filter_sublist T

/-- Claim C5: filtering is idempotent — filtering an already-filtered
result with the same criteria yields the same result. -/
theorem filteredTasks_idem (T : List Task) (s p st : String) :
    filteredTasks (filteredTasks T s p st) s p st = filteredTasks T s p st := by
  unfold filteredTasks
  apply List.filter_eq_self.mpr
  intro a ha
  exact (List.mem_filter.mp ha).2

theorem toLowerCase_empty : toLowerCase "" = "" := rfl

/-- Claim C6: the neutral filter (empty search, priority `all`, status
`all`) returns the input collection unchanged. -/
theorem filteredTasks_neutral (T : List Task) :
    filteredTasks T "" "all" "all" = T := by
  unfold filteredTasks
  apply List.filter_eq_self.mpr
  intro a _
  simp [taskPred, matchesPriority, matchesStatus, matchesSearch, jsIncludes,
    toLowerCase_empty, toLowerCase]

/-- Claim C8: filtering has no side effects: the collection is left
unchanged by the call, every output task is an element of the input with
its field values intact, and the output is a function of the four inputs
alone, so repeated calls with equal inputs return equal results. -/
theorem filteredTasks_pure (T : List Task) (s p st : String) :
    (filterRun T s p st).1 = T ∧
    (∀ t, t ∈ (filterRun T s p st).2 → t ∈ T) ∧
    (∀ T' s' p' st', T = T' → s = s' → p = p' → st = st' →
      filterRun T s p st = filterRun T' s' p' st') := by
  refine ⟨rfl, ?_, ?_⟩
  · intro t ht
    simp only [filterRun, filteredTasks] at ht
    exact List.mem_of_mem_filter ht
  · intro T' s' p' st' h1 h2 h3 h4
    rw [h1, h2, h3, h4]

/-- Witness for claim C8 at a concrete collection and filter triple. -/
theorem filteredTasks_pure_witness :
    sampleTask ∈ [sampleTask] ∧
    filterRun [sampleTask] "" "all" "all" = filterRun [sampleTask] "" "all" "all" :=
  ⟨(filteredTasks_pure [sampleTask] "" "all" "all").2.1 sampleTask (by decide),
   (filteredTasks_pure [sampleTask] "" "all" "all").2.2 [sampleTask] "" "all" "all"
     rfl rfl rfl rfl⟩

/-- Claim C2, counterexample: on a task whose `title` is absent,
filtering with the non-empty search string `"a"` throws a `TypeError`
instead of completing normally with the task treated as non-matching. -/
theorem filteredTasksOpt_throws_on_absent :
    filteredTasksOpt "a" "all" "all"
      [⟨none, some "alice", some "bob", "high", "pending"⟩] = Except.error () := rfl

theorem matchesSearchOpt_ok {t : TaskOpt} {s : String}
    (h1 : t.title.isSome) (h2 : t.created_by.isSome) (h3 : t.assigned_to.isSome) :
    ∃ b, matchesSearchOpt t s = Except.ok b := by
  obtain ⟨a1, e1⟩ := Option.isSome_iff_exists.mp h1
  obtain ⟨a2, e2⟩ := Option.isSome_iff_exists.mp h2
  obtain ⟨a3, e3⟩ := Option.isSome_iff_exists.mp h3
  unfold matchesSearchOpt
  rw [e1, e2, e3]
  dsimp only
  split_ifs <;> exact ⟨_, rfl⟩

theorem taskPredOpt_ok {t : TaskOpt} {s p st : String}
    (h1 : t.title.isSome) (h2 : t.created_by.isSome) (h3 : t.assigned_to.isSome) :
    ∃ b, taskPredOpt t s p st = Except.ok b := by
  obtain ⟨ms, hms⟩ := @matchesSearchOpt_ok t s h1 h2 h3
  exact ⟨_, by unfold taskPredOpt; rw [hms]⟩

theorem filteredTasksOpt_ok (s p st : String) (T : List TaskOpt)
    (h : ∀ t ∈ T, t.title.isSome ∧ t.created_by.isSome ∧ t.assigned_to.isSome) :
    ∃ l, filteredTasksOpt s p st T = Except.ok l := by
  induction T with
  | nil => exact ⟨[], rfl⟩
  | cons a rest ih =>
    obtain ⟨ha1, ha2, ha3⟩ := h a (List.mem_cons_self a rest)
    obtain ⟨b, hb⟩ := @taskPredOpt_ok a s p st ha1 ha2 ha3
    obtain ⟨l, hl⟩ := ih (fun t ht => h t (List.mem_cons_of_mem a ht))
    exact ⟨_, by unfold filteredTasksOpt; rw [hb, hl]⟩

theorem jsIncludes_empty_left {s : String} (hs : s ≠ "") :
    jsIncludes (toLowerCase "") (toLowerCase s) = false := by
  apply decide_eq_false
  intro hcontra
  obtain ⟨u, v, huv⟩ := hcontra
  have h0 : (u ++ (toLowerCase s).data) ++ v = ([] : List Char) := by
    simpa [toLowerCase] using huv
  have h1 := (List.append_eq_nil.mp h0).1
  have h2 := (List.append_eq_nil.mp h1).2
  have h3 : s.data.map Char.toLower = [] := h2
  have hdata : s.data = [] := List.map_eq_nil_iff.mp h3
  exact hs (by cases s; simp_all)

theorem matchesSearchOpt_empty_fields {t : TaskOpt} {s : String}
    (h1 : t.title = some "") (h2 : t.created_by = some "")
    (h3 : t.assigned_to = some "") (hs : s ≠ "") :
    matchesSearchOpt t s = Except.ok false := by
  unfold matchesSearchOpt
  rw [h1, h2, h3]
  simp [jsIncludes_empty_left hs]

/-- Claim C2, amended: filtering completes normally (never throws) on
every collection whose tasks have the three searched fields present —
present-but-empty fields are fine and never match a non-empty search
string — while a task with an absent field makes the search access throw
a `TypeError` instead of being treated as non-matching. -/
theorem filteredTasksOpt_total (T : List TaskOpt) (s p st : String) :
    ((∀ t ∈ T, t.title.isSome ∧ t.created_by.isSome ∧ t.assigned_to.isSome) →
      ∃ l, filteredTasksOpt s p st T = Except.ok l) ∧
    (∀ t : TaskOpt, t.title = some "" → t.created_by = some "" →
      t.assigned_to = some "" → s ≠ "" → matchesSearchOpt t s = Except.ok false) :=
  ⟨fun h => filteredTasksOpt_ok s p st T h,
   fun _ h1 h2 h3 hs => matchesSearchOpt_empty_fields h1 h2 h3 hs⟩

/-- Witness for the amended claim C2 at concrete inputs. -/
theorem filteredTasksOpt_total_witness :
    (∃ l, filteredTasksOpt "q" "all" "all"
      [⟨some "x", some "y", some "z", "high", "pending"⟩] = Except.ok l) ∧
    matchesSearchOpt ⟨some "", some "", some "", "high", "pending"⟩ "q" =
      Except.ok false :=
  ⟨(filteredTasksOpt_total [⟨some "x", some "y", some "z", "high", "pending"⟩]
      "q" "all" "all").1 (by decide),
   (filteredTasksOpt_total [] "q" "all" "all").2
      ⟨some "", some "", some "", "high", "pending"⟩ rfl rfl rfl (by decide)⟩

theorem maybeSingleProfile_isSome {profiles : List String} {email : String}
    (h : email ∈ profiles) : (maybeSingleProfile profiles email).isSome = true := by
  unfold maybeSingleProfile
  cases hfind : profiles.find? (fun x => x == email) with
  | some v => rfl
  | none =>
    have := List.find?_eq_none.mp hfind email h
    simp at this

theorem maybeSingleProfile_isNone {profiles : List String} {email : String}
    (h : email ∉ profiles) : (maybeSingleProfile profiles email).isSome = false := by
  unfold maybeSingleProfile
  rw [List.find?_eq_none.mpr]
  · rfl
  · intro x hx
    simp only [beq_iff_eq]
    intro hxe
    exact h (hxe ▸ hx)

/-- Claim C3: a signup submission whose email is already registered
produces the duplicate-email state and never reaches `handleSignup`, no
matter what the debounced pre-check left behind. -/
theorem onSubmit_duplicate (emailError : Option String) (formEmailError : Bool)
    (profiles : List String) (data : SignupFormValues)
    (h : data.email ∈ profiles) :
    onSubmit emailError formEmailError profiles data = SubmitOutcome.duplicateEmail ∧
    onSubmit emailError formEmailError profiles data ≠ SubmitOutcome.signupInvoked := by
  have hdup : onSubmit emailError formEmailError profiles data =
      SubmitOutcome.duplicateEmail := by
    unfold onSubmit
    by_cases h1 : (emailError.isSome || formEmailError) = true
    · simp [h1]
    · simp [h1, maybeSingleProfile_isSome h]
  exact ⟨hdup, by rw [hdup]; simp⟩

/-- Witness for claim C3 at a concrete registered email. -/
theorem onSubmit_duplicate_witness :
    dupSignup.email ∈ ["a@outlook.com"] ∧
    onSubmit none false ["a@outlook.com"] dupSignup = SubmitOutcome.duplicateEmail :=
  ⟨by decide,
   (onSubmit_duplicate none false ["a@outlook.com"] dupSignup (by decide)).1⟩

/-- Claim C9: once a submission passes the duplicate-email checks, the
hidden security-code gate decides it: `handleSignup` is invoked exactly
when `security_code` is the string `"hrd712"`, and any other value is
rejected with the invalid-security-code error, with no account creation
attempted. -/
theorem onSubmit_security_gate (profiles : List String) (data : SignupFormValues)
    (h : data.email ∉ profiles) :
    (data.security_code = "hrd712" →
      onSubmit none false profiles data = SubmitOutcome.signupInvoked) ∧
    (data.security_code ≠ "hrd712" →
      onSubmit none false profiles data = SubmitOutcome.invalidSecurityCode ∧
      onSubmit none false profiles data ≠ SubmitOutcome.signupInvoked) := by
  constructor
  · intro hc
    unfold onSubmit
    simp [maybeSingleProfile_isNone h, hc]
  · intro hc
    have hout : onSubmit none false profiles data =
        SubmitOutcome.invalidSecurityCode := by
      unfold onSubmit
      simp [maybeSingleProfile_isNone h, hc]
    exact ⟨hout, by rw [hout]; simp⟩

/-- Witness for claim C9 at concrete right and wrong security codes. -/
theorem onSubmit_security_gate_witness :
    goodSignup.email ∉ ([] : List String) ∧
    onSubmit none false [] goodSignup = SubmitOutcome.signupInvoked ∧
    onSubmit none false [] badSignup = SubmitOutcome.invalidSecurityCode :=
  ⟨by decide,
   (onSubmit_security_gate [] goodSignup (by decide)).1 (by decide),
   ((onSubmit_security_gate [] badSignup (by decide)).2 (by decide)).1⟩

/-- Claim C10: the local signup schema accepts a submission only if its
email passes the well-formed-email test and ends with `@outlook.com`;
an email of any other domain makes the whole validation fail, blocking
submission. -/
theorem signupSchema_outlook_only (emailFormat : String → Bool) (v : SignupValues) :
    (signupSchema emailFormat v = true →
      emailFormat v.email = true ∧ jsEndsWith v.email "@outlook.com" = true) ∧
    (jsEndsWith v.email "@outlook.com" = false → signupSchema emailFormat v = false) := by
  constructor
  · intro h
    simp only [signupSchema, Bool.and_eq_true] at h
    exact ⟨h.1.1.1.1.2.1, h.1.1.1.1.2.2⟩
  · intro h
    simp [signupSchema, h]

/-- Witness for claim C10 at a concrete Outlook and a concrete non-Outlook
email. -/
theorem signupSchema_outlook_only_witness :
    ((fun _ : String => true) outlookValues.email = true ∧
      jsEndsWith outlookValues.email "@outlook.com" = true) ∧
    signupSchema (fun _ => true) gmailValues = false :=
  ⟨(signupSchema_outlook_only (fun _ => true) outlookValues).1 (by decide),
   (signupSchema_outlook_only (fun _ => true) gmailValues).2 (by decide)⟩

/-- Claim C7: on a sign-in event the login flow routes an unconfirmed
session to the verification screen and a confirmed one to the main
view; any session present on the login page is redirected away from
login; and an unverified session never lands on the task dashboard —
whatever route it aims at, the dashboard gate bounces it. -/
theorem login_session_gate (session : Session) :
    (session.email_confirmed = false → onSignedIn session = Route.verify) ∧
    (session.email_confirmed = true → onSignedIn session = Route.main) ∧
    checkUser (some session) ≠ some Route.login ∧
    (checkUser (some session)).isSome = true ∧
    (session.email_confirmed = false → ∀ r, landingRoute session r ≠ Route.main) := by
  refine ⟨?_, ?_, ?_, ?_, ?_⟩
  · intro h
    simp [onSignedIn, h]
  · intro h
    simp [onSignedIn, h]
  · simp [checkUser]
  · simp [checkUser]
  · intro h r
    cases r <;> simp [landingRoute, dashboardGate, h]

/-- Witness for claim C7 at concrete confirmed and unconfirmed sessions. -/
theorem login_session_gate_witness :
    onSignedIn ⟨false⟩ = Route.verify ∧
    onSignedIn ⟨true⟩ = Route.main ∧
    landingRoute ⟨false⟩ Route.main ≠ Route.main :=
  ⟨(login_session_gate ⟨false⟩).1 rfl,
   (login_session_gate ⟨true⟩).2.1 rfl,
   (login_session_gate ⟨false⟩).2.2.2.2 rfl Route.main⟩

end TaskApp
